import Mathlib

/-!
Verification of `run-all-benchmarks.py`: a sequential benchmark-run
orchestrator.  The script holds a fixed list of 18 run configurations and,
for each one in order, issues external `adb` commands (force-stop, kill,
launch, final file retrieval) interleaved with fixed-duration sleeps.

The embedding records the externally visible behaviour as a trace of
events (issued commands and sleeps).  External command outcomes are
modelled by an oracle `env : Nat → Bool` giving the success of the k-th
issued command; `subprocess.run(..., check=True)` aborts the whole run on
a failed command (Python raises `CalledProcessError`), while
`check=False` continues regardless of the outcome, exactly as in the
source.
-/

/-- One run configuration, mirroring a dict of the `configs` list in
`run-all-benchmarks.py`.  The Python values of `preparedCache` and
`drawCache` are the string literals `"true"` / `"false"` (they are spliced
verbatim into `--ez` boolean extras), so they are `String` here. -/
structure RunConfig where
  name : String
  size : Nat
  scenario : String
  preparedCache : String
  drawCache : String
deriving DecidableEq, Repr

/-- The fixed list of 18 configurations, transcribed from lines 9–33 of
`run-all-benchmarks.py`. -/
def configs : List RunConfig := [
  ⟨"baseline_static_100", 100, "STATIC", "false", "false"⟩,
  ⟨"preparedcache_static_100", 100, "STATIC", "true", "false"⟩,
  ⟨"drawcache_static_100", 100, "STATIC", "false", "true"⟩,
  ⟨"baseline_mutation_100", 100, "FULL_MUTATION", "false", "false"⟩,
  ⟨"preparedcache_mutation_100", 100, "FULL_MUTATION", "true", "false"⟩,
  ⟨"drawcache_mutation_100", 100, "FULL_MUTATION", "false", "true"⟩,
  ⟨"baseline_static_500", 500, "STATIC", "false", "false"⟩,
  ⟨"preparedcache_static_500", 500, "STATIC", "true", "false"⟩,
  ⟨"drawcache_static_500", 500, "STATIC", "false", "true"⟩,
  ⟨"baseline_mutation_500", 500, "FULL_MUTATION", "false", "false"⟩,
  ⟨"preparedcache_mutation_500", 500, "FULL_MUTATION", "true", "false"⟩,
  ⟨"drawcache_mutation_500", 500, "FULL_MUTATION", "false", "true"⟩,
  ⟨"baseline_static_1000", 1000, "STATIC", "false", "false"⟩,
  ⟨"preparedcache_static_1000", 1000, "STATIC", "true", "false"⟩,
  ⟨"drawcache_static_1000", 1000, "STATIC", "false", "true"⟩,
  ⟨"baseline_mutation_1000", 1000, "FULL_MUTATION", "false", "false"⟩,
  ⟨"preparedcache_mutation_1000", 1000, "FULL_MUTATION", "true", "false"⟩,
  ⟨"drawcache_mutation_1000", 1000, "FULL_MUTATION", "false", "true"⟩]

/-- An externally visible event: a command handed to `subprocess.run`
(its argument vector), or a `time.sleep` of a given duration. -/
inductive Event where
  | cmd (args : List String)
  | sleep (n : Nat)
deriving DecidableEq, Repr

/-- Execution state: the trace of events so far, and the number of
commands issued so far (the index the success oracle is consulted at). -/
structure ExecState where
  trace : List Event
  k : Nat
deriving DecidableEq, Repr

/-- The `adb shell am force-stop …` command (lines 58 and 79). -/
def forceStopCmd : List String :=
  ["adb", "shell", "am", "force-stop", "io.fabianterhorst.isometric.benchmark"]

/-- The `adb shell am kill …` command (lines 62 and 83). -/
def killCmd : List String :=
  ["adb", "shell", "am", "kill", "io.fabianterhorst.isometric.benchmark"]

/-- The final `adb shell cat …benchmark_results.csv` command (line 92). -/
def pullCmd : List String :=
  ["adb", "shell", "cat",
   "/storage/emulated/0/Android/data/io.fabianterhorst.isometric.benchmark/files/benchmark_results.csv"]

/-- The launch command built at lines 46–55: `adb shell am start -n …`
with the configuration's fields spliced in (`str(config['size'])`,
`config['scenario']`, `config['preparedCache']`, `config['drawCache']`)
plus the constants `interaction=NONE` and `runs=1`. -/
def buildCmd (c : RunConfig) : List String :=
  ["adb", "shell", "am", "start", "-n",
   "io.fabianterhorst.isometric.benchmark/.BenchmarkActivity",
   "--ei", "sceneSize", toString c.size,
   "--es", "scenario", c.scenario,
   "--ez", "enablePreparedSceneCache", c.preparedCache,
   "--ez", "enableDrawWithCache", c.drawCache,
   "--es", "interaction", "NONE",
   "--ei", "runs", "1"]

/-- `subprocess.run(args, check:=check)`: the command is recorded in the
trace and the command counter advances; with `check` set, a failed
command (oracle says `false`) raises, aborting execution with the state
so far; with `check` unset the outcome is discarded and execution
continues. -/
def runCmd (env : Nat → Bool) (check : Bool) (args : List String)
    (s : ExecState) : Except ExecState ExecState :=
  let s' : ExecState := ⟨s.trace ++ [Event.cmd args], s.k + 1⟩
  if check && !(env s.k) then .error s' else .ok s'

/-- `time.sleep(n)`: record the pause in the trace. -/
def sleep (n : Nat) (s : ExecState) : ExecState :=
  ⟨s.trace ++ [Event.sleep n], s.k⟩

/-- One iteration of the main loop (lines 41–86) for configuration `c`:
force-stop (best-effort), sleep 3, kill (best-effort), sleep 2, launch
(checked), the wait loop `for wait_sec in range(5, 31, 5): time.sleep(5)`,
sleep 10, force-stop (best-effort), sleep 2, kill (best-effort), sleep 1. -/
def runOne (env : Nat → Bool) (c : RunConfig) (s : ExecState) :
    Except ExecState ExecState := do
  let s ← runCmd env false forceStopCmd s
  let s := sleep 3 s
  let s ← runCmd env false killCmd s
  let s := sleep 2 s
  let s ← runCmd env true (buildCmd c) s
  let s := (List.range' 5 6 5).foldl (fun t _ => sleep 5 t) s
  let s := sleep 10 s
  let s ← runCmd env false forceStopCmd s
  let s := sleep 2 s
  let s ← runCmd env false killCmd s
  return sleep 1 s

/-- The `for i, config in enumerate(configs, 1)` loop: run each
configuration in order; a raised error propagates and stops the loop. -/
def runList (env : Nat → Bool) : List RunConfig → ExecState → Except ExecState ExecState
  | [], s => .ok s
  | c :: cs, s =>
    match runOne env c s with
    | .ok s' => runList env cs s'
    | .error s' => .error s'

/-- The whole script: the main loop over `configs` followed by the final
checked retrieval of the results file (line 92). -/
def runAll (env : Nat → Bool) : Except ExecState ExecState :=
  match runList env configs ⟨[], 0⟩ with
  | .ok s => runCmd env true pullCmd s
  | .error s => .error s

/-- The event block one successful loop iteration appends to the trace. -/
def configTrace (c : RunConfig) : List Event :=
  [Event.cmd forceStopCmd, Event.sleep 3, Event.cmd killCmd, Event.sleep 2,
   Event.cmd (buildCmd c),
   Event.sleep 5, Event.sleep 5, Event.sleep 5,
   Event.sleep 5, Event.sleep 5, Event.sleep 5,
   Event.sleep 10, Event.cmd forceStopCmd, Event.sleep 2, Event.cmd killCmd,
   Event.sleep 1]

/-- The event block appended by an iteration whose launch fails: it ends
at the failed launch command. -/
def abortBlock (c : RunConfig) : List Event :=
  [Event.cmd forceStopCmd, Event.sleep 3, Event.cmd killCmd, Event.sleep 2,
   Event.cmd (buildCmd c)]

/-- Recognises a launch command (`adb shell am start …`). -/
def isLaunch : Event → Bool
  | Event.cmd ("adb" :: "shell" :: "am" :: "start" :: _) => true
  | _ => false

/-- Recognises the results-retrieval command (`adb shell cat …`). -/
def isPull : Event → Bool
  | Event.cmd ("adb" :: "shell" :: "cat" :: _) => true
  | _ => false

/-- Recognises a 5-unit sleep (one increment of the wait loop). -/
def sleepFive : Event → Bool
  | Event.sleep 5 => true
  | _ => false

/-- Total duration of the sleeps in a trace. -/
def sleepSum : List Event → Nat
  | [] => 0
  | Event.sleep n :: r => n + sleepSum r
  | Event.cmd _ :: r => sleepSum r

/-- First value in an argument vector found directly after an adjacent
pair `flag key` (e.g. `--ei sceneSize 100` yields `"100"`). -/
def extraArg (flag key : String) : List String → Option String
  | f :: k :: v :: rest =>
    if f = flag ∧ k = key then some v else extraArg flag key (k :: v :: rest)
  | _ => none

/-- The trace left behind when the launch of the `i`-th configuration
(0-based) fails: the full blocks of the earlier configurations followed
by the aborted block of configuration `i`. -/
def abortTraceAt (i : Nat) : List Event :=
  ((configs.take i).map configTrace).flatten ++
    (((configs.get? i).map abortBlock).getD [])

/-- Recognises a force-stop command (`adb shell am force-stop …`). -/
def isForceStop : Event → Bool
  | Event.cmd ("adb" :: "shell" :: "am" :: "force-stop" :: _) => true
  | _ => false

/-- Recognises a kill command (`adb shell am kill …`). -/
def isKill : Event → Bool
  | Event.cmd ("adb" :: "shell" :: "am" :: "kill" :: _) => true
  | _ => false

lemma countP_configTrace_isPull (c : RunConfig) :
    (configTrace c).countP isPull = 0 := rfl

lemma countP_configTrace_isLaunch (c : RunConfig) :
    (configTrace c).countP isLaunch = 1 := rfl

lemma countP_abortBlock_isPull (c : RunConfig) :
    (abortBlock c).countP isPull = 0 := rfl

lemma countP_abortBlock_isLaunch (c : RunConfig) :
    (abortBlock c).countP isLaunch = 1 := rfl

lemma countP_configTrace_isForceStop (c : RunConfig) :
    (configTrace c).countP isForceStop = 2 := rfl

lemma countP_configTrace_isKill (c : RunConfig) :
    (configTrace c).countP isKill = 2 := rfl

lemma countP_abortBlock_isForceStop (c : RunConfig) :
    (abortBlock c).countP isForceStop = 1 := rfl

lemma countP_abortBlock_isKill (c : RunConfig) :
    (abortBlock c).countP isKill = 1 := rfl

lemma abortTraceAt_eq (i : Nat) (hi : i < configs.length) :
    abortTraceAt i =
      ((configs.take i).map configTrace).flatten ++ abortBlock (configs.get ⟨i, hi⟩) := by
  unfold abortTraceAt
  rw [List.get?_eq_get hi]
  rfl

lemma countP_flatten_configTrace (p : Event → Bool) (n : Nat)
    (h : ∀ c, (configTrace c).countP p = n) (cs : List RunConfig) :
    ((cs.map configTrace).flatten).countP p = n * cs.length := by
  induction cs with
  | nil => simp
  | cons c cs ih =>
    simp [List.countP_append, ih, h c, Nat.mul_succ]
    omega

lemma runOne_ok (env : Nat → Bool) (c : RunConfig) (s : ExecState)
    (h : env (s.k + 2) = true) :
    runOne env c s = .ok ⟨s.trace ++ configTrace c, s.k + 5⟩ := by
  have h' : env (s.k + 1 + 1) = true := h
  simp [runOne, runCmd, sleep, configTrace, h', List.range', Bind.bind, Except.bind]
  rfl

lemma runOne_err (env : Nat → Bool) (c : RunConfig) (s : ExecState)
    (h : env (s.k + 2) = false) :
    runOne env c s = .error ⟨s.trace ++ abortBlock c, s.k + 3⟩ := by
  have h' : env (s.k + 1 + 1) = false := h
  simp [runOne, runCmd, sleep, abortBlock, h', List.range', Bind.bind, Except.bind]

lemma runList_ok (env : Nat → Bool) (cs : List RunConfig) : ∀ (s : ExecState),
    (∀ j, j < cs.length → env (s.k + 5 * j + 2) = true) →
    runList env cs s = .ok ⟨s.trace ++ (cs.map configTrace).flatten, s.k + 5 * cs.length⟩ := by
  induction cs with
  | nil => intro s h; simp [runList]
  | cons c cs ih =>
    intro s h
    have h0 : env (s.k + 2) = true := by simpa using h 0 (Nat.succ_pos _)
    simp only [runList, runOne_ok env c s h0]
    rw [ih ⟨s.trace ++ configTrace c, s.k + 5⟩ ?_]
    · simp [ExecState.mk.injEq]
      omega
    · intro j hj
      have := h (j + 1) (by simpa using Nat.succ_lt_succ hj)
      simp only [ExecState.k]
      have e : s.k + 5 + 5 * j + 2 = s.k + 5 * (j + 1) + 2 := by omega
      rw [e]
      exact this

lemma runList_err (env : Nat → Bool) (cs : List RunConfig) :
    ∀ (i : Nat) (s : ExecState) (hi : i < cs.length),
    (∀ j, j < i → env (s.k + 5 * j + 2) = true) →
    env (s.k + 5 * i + 2) = false →
    runList env cs s = .error
      ⟨s.trace ++ ((cs.take i).map configTrace).flatten ++ abortBlock (cs.get ⟨i, hi⟩),
       s.k + 5 * i + 3⟩ := by
  induction cs with
  | nil => intro i s hi; exact absurd hi (Nat.not_lt_zero i)
  | cons c cs ih =>
    intro i s hi hok hfail
    match i with
    | 0 =>
      have h0 : env (s.k + 2) = false := by simpa using hfail
      simp [runList, runOne_err env c s h0]
    | i + 1 =>
      have h0 : env (s.k + 2) = true := by simpa using hok 0 (Nat.succ_pos i)
      simp only [runList, runOne_ok env c s h0]
      rw [ih i ⟨s.trace ++ configTrace c, s.k + 5⟩ (Nat.lt_of_succ_lt_succ hi) ?_ ?_]
      · simp [ExecState.mk.injEq, List.append_assoc]
        omega
      · intro j hj
        have := hok (j + 1) (Nat.succ_lt_succ hj)
        simp only [ExecState.k]
        have e : s.k + 5 + 5 * j + 2 = s.k + 5 * (j + 1) + 2 := by omega
        rw [e]
        exact this
      · simp only [ExecState.k]
        have e : s.k + 5 + 5 * i + 2 = s.k + 5 * (i + 1) + 2 := by omega
        rw [e]
        exact hfail

lemma runAll_ok (env : Nat → Bool)
    (hlaunch : ∀ j, j < configs.length → env (5 * j + 2) = true)
    (hpull : env 90 = true) :
    runAll env = .ok ⟨(configs.map configTrace).flatten ++ [Event.cmd pullCmd], 91⟩ := by
  have hr := runList_ok env configs ⟨[], 0⟩ (fun j hj => by simpa using hlaunch j hj)
  simp only [List.nil_append] at hr
  unfold runAll
  rw [hr]
  simp [runCmd, show (5 * configs.length : Nat) = 90 from rfl, hpull]

/-- C1: for every configuration the orchestrator issues its external
commands in the fixed order stop, pause, kill, pause, launch, wait-loop
(six 5-unit sleeps), pause, stop, pause, kill, pause — the per-config
block `configTrace` — with no reordering, and after the last
configuration it issues exactly one retrieval command, which is the final
event; no retrieval command occurs anywhere before that point. -/
theorem command_order_per_config_and_final_pull (env : Nat → Bool)
    (h : ∀ k, env k = true) :
    runAll env = .ok ⟨(configs.map configTrace).flatten ++ [Event.cmd pullCmd], 91⟩ ∧
    ((configs.map configTrace).flatten).countP isPull = 0 := by
  refine ⟨runAll_ok env (fun j hj => h _) (h 90), ?_⟩
  rw [countP_flatten_configTrace isPull 0 countP_configTrace_isPull]
  simp

theorem command_order_per_config_and_final_pull_witness :
    runAll (fun _ => true) = .ok ⟨(configs.map configTrace).flatten ++ [Event.cmd pullCmd], 91⟩ ∧
    ((configs.map configTrace).flatten).countP isPull = 0 :=
  command_order_per_config_and_final_pull (fun _ => true) (fun _ => rfl)

/-- C2: if the launch of the `i`-th configuration (0-based, among the 18
entries) fails while all earlier launches succeeded, the run raises and
halts at that very command: the run's result is an error whose trace is
exactly the first `i` full per-config blocks followed by the aborted
block of configuration `i`, cut off right after the failed launch.
Hence configurations `i+1`..`18` are never attempted (the trace holds
exactly `i + 1` launch commands), none of their best-effort commands are
issued (exactly `2*i + 1` force-stops and `2*i + 1` kills appear — those
of the completed configurations plus the two leading ones of the aborted
configuration), and the final retrieval is never issued (zero retrieval
commands in the trace). -/
theorem launch_failure_halts_sequence (env : Nat → Bool) (i : Nat)
    (hi : i < configs.length)
    (hok : ∀ j, j < i → env (5 * j + 2) = true)
    (hfail : env (5 * i + 2) = false) :
    runAll env = .error ⟨abortTraceAt i, 5 * i + 3⟩ ∧
    (abortTraceAt i).countP isPull = 0 ∧
    (abortTraceAt i).countP isLaunch = i + 1 ∧
    (abortTraceAt i).countP isForceStop = 2 * i + 1 ∧
    (abortTraceAt i).countP isKill = 2 * i + 1 := by
  have hr := runList_err env configs i ⟨[], 0⟩ hi
    (fun j hj => by simpa using hok j hj) (by simpa using hfail)
  simp only [List.nil_append, Nat.zero_add] at hr
  have ha := abortTraceAt_eq i hi
  have hi' : i < 18 := hi
  refine ⟨?_, ?_, ?_, ?_, ?_⟩
  · rw [ha]
    unfold runAll
    rw [hr]
  · rw [ha, List.countP_append,
      countP_flatten_configTrace isPull 0 countP_configTrace_isPull,
      countP_abortBlock_isPull]
    omega
  · rw [ha, List.countP_append,
      countP_flatten_configTrace isLaunch 1 countP_configTrace_isLaunch,
      countP_abortBlock_isLaunch, List.length_take,
      show configs.length = 18 from rfl]
    omega
  · rw [ha, List.countP_append,
      countP_flatten_configTrace isForceStop 2 countP_configTrace_isForceStop,
      countP_abortBlock_isForceStop, List.length_take,
      show configs.length = 18 from rfl]
    omega
  · rw [ha, List.countP_append,
      countP_flatten_configTrace isKill 2 countP_configTrace_isKill,
      countP_abortBlock_isKill, List.length_take,
      show configs.length = 18 from rfl]
    omega

theorem launch_failure_halts_sequence_witness :
    runAll (fun k => decide (k ≠ 7)) = .error ⟨abortTraceAt 1, 8⟩ ∧
    (abortTraceAt 1).countP isPull = 0 ∧
    (abortTraceAt 1).countP isLaunch = 2 ∧
    (abortTraceAt 1).countP isForceStop = 3 ∧
    (abortTraceAt 1).countP isKill = 3 :=
  launch_failure_halts_sequence (fun k => decide (k ≠ 7)) 1 (by decide)
    (by decide) (by decide)

/-- C3: stop/kill commands are issued with `check=False`, so their
failures are discarded: for any outcome oracle — in particular one where
every one of the four per-config stop/kill commands fails — as long as
the launches and the final retrieval succeed, the whole sequence still
runs to completion with the full trace, every later step included. -/
theorem stop_kill_failures_ignored (env : Nat → Bool)
    (hlaunch : ∀ j, j < configs.length → env (5 * j + 2) = true)
    (hpull : env 90 = true) :
    runAll env = .ok ⟨(configs.map configTrace).flatten ++ [Event.cmd pullCmd], 91⟩ :=
  runAll_ok env hlaunch hpull

theorem stop_kill_failures_ignored_witness :
    runAll (fun k => decide (k % 5 = 2) || decide (k = 90)) =
      .ok ⟨(configs.map configTrace).flatten ++ [Event.cmd pullCmd], 91⟩ :=
  stop_kill_failures_ignored (fun k => decide (k % 5 = 2) || decide (k = 90))
    (by decide) (by decide)

/-- C4: for every one of the 18 configurations, the launch command
carries exactly the configuration's fields under the expected typed
extras: `--ei sceneSize` = size rendered as a decimal integer,
`--es scenario` = scenario, `--ez enablePreparedSceneCache` =
preparedCache, `--ez enableDrawWithCache` = drawCache, plus the two
constants `--es interaction NONE` and `--ei runs 1`. -/
theorem launch_args_encode_config :
    ∀ c, c ∈ configs →
      extraArg "--ei" "sceneSize" (buildCmd c) = some (toString c.size) ∧
      extraArg "--es" "scenario" (buildCmd c) = some c.scenario ∧
      extraArg "--ez" "enablePreparedSceneCache" (buildCmd c) = some c.preparedCache ∧
      extraArg "--ez" "enableDrawWithCache" (buildCmd c) = some c.drawCache ∧
      extraArg "--es" "interaction" (buildCmd c) = some "NONE" ∧
      extraArg "--ei" "runs" (buildCmd c) = some "1" := by decide

theorem launch_args_encode_config_witness :
    extraArg "--ei" "sceneSize"
      (buildCmd ⟨"baseline_static_100", 100, "STATIC", "false", "false"⟩) = some "100" ∧
    extraArg "--es" "scenario"
      (buildCmd ⟨"baseline_static_100", 100, "STATIC", "false", "false"⟩) = some "STATIC" ∧
    extraArg "--ez" "enablePreparedSceneCache"
      (buildCmd ⟨"baseline_static_100", 100, "STATIC", "false", "false"⟩) = some "false" ∧
    extraArg "--ez" "enableDrawWithCache"
      (buildCmd ⟨"baseline_static_100", 100, "STATIC", "false", "false"⟩) = some "false" ∧
    extraArg "--es" "interaction"
      (buildCmd ⟨"baseline_static_100", 100, "STATIC", "false", "false"⟩) = some "NONE" ∧
    extraArg "--ei" "runs"
      (buildCmd ⟨"baseline_static_100", 100, "STATIC", "false", "false"⟩) = some "1" :=
  launch_args_encode_config ⟨"baseline_static_100", 100, "STATIC", "false", "false"⟩
    (by decide)

/-- C5: each successful configuration lifecycle appends exactly the block
`configTrace c`, whose sleeps total 3+2+30+10+2+1 = 48 time units, the
30-unit observation wait being performed as six fixed 5-unit sleeps. -/
theorem per_config_pause_total (env : Nat → Bool) (c : RunConfig) (s : ExecState)
    (h : env (s.k + 2) = true) :
    runOne env c s = .ok ⟨s.trace ++ configTrace c, s.k + 5⟩ ∧
    sleepSum (configTrace c) = 48 ∧
    (configTrace c).countP sleepFive = 6 :=
  ⟨runOne_ok env c s h, rfl, rfl⟩

theorem per_config_pause_total_witness :
    runOne (fun _ => true) ⟨"baseline_static_100", 100, "STATIC", "false", "false"⟩ ⟨[], 0⟩ =
      .ok ⟨configTrace ⟨"baseline_static_100", 100, "STATIC", "false", "false"⟩, 5⟩ ∧
    sleepSum (configTrace ⟨"baseline_static_100", 100, "STATIC", "false", "false"⟩) = 48 ∧
    (configTrace ⟨"baseline_static_100", 100, "STATIC", "false", "false"⟩).countP sleepFive = 6 :=
  per_config_pause_total (fun _ => true)
    ⟨"baseline_static_100", 100, "STATIC", "false", "false"⟩ ⟨[], 0⟩ rfl

/-- C6: the configuration list has exactly 18 entries and covers every
point of {100,500,1000} × {STATIC,FULL_MUTATION} × {baseline,
preparedCache-only, drawCache-only} exactly once (cache modes given by
the `(preparedCache, drawCache)` value pair). -/
theorem configs_cover_matrix :
    configs.length = 18 ∧
    (([100, 500, 1000] : List Nat).all fun sz =>
      (["STATIC", "FULL_MUTATION"]).all fun sc =>
        ([("false", "false"), ("true", "false"), ("false", "true")] :
            List (String × String)).all fun m =>
          (configs.countP fun c =>
            c.size == sz && c.scenario == sc &&
            c.preparedCache == m.1 && c.drawCache == m.2) == 1) = true := by
  decide

/-- C7: the `name` values of the 18 configuration entries are pairwise
distinct. -/
theorem config_names_pairwise_distinct : (configs.map RunConfig.name).Nodup := by
  decide

/-- C8: in every configuration entry each cache flag is a boolean value
(`"true"` or `"false"`) and the two flags are never both true: exactly
one is true, or both are false. -/
theorem cache_flags_never_both_true :
    (configs.all fun c =>
      (c.preparedCache == "true" || c.preparedCache == "false") &&
      (c.drawCache == "true" || c.drawCache == "false") &&
      !(c.preparedCache == "true" && c.drawCache == "true")) = true := by
  decide

/-- C9: every configuration entry conforms to the declared data model:
`name` is a string and `size` a natural number by the type of
`RunConfig`, `size` is positive, `scenario` is one of STATIC /
FULL_MUTATION, and each cache flag is a boolean value, encoded in the
source as the string `"true"` or `"false"`. -/
theorem configs_conform_to_data_model :
    (configs.all fun c =>
      decide (0 < c.size) &&
      (c.scenario == "STATIC" || c.scenario == "FULL_MUTATION") &&
      (c.preparedCache == "true" || c.preparedCache == "false") &&
      (c.drawCache == "true" || c.drawCache == "false")) = true := by
  decide

/-- C10: the orchestrator is deterministic and input-free: the full
command/sleep trace is a compiled-in constant.  The two outcome oracles
are constrained only at the indices the program ever checks — the 18
launch positions and the final retrieval at index 90 — and are entirely
unconstrained at the 72 best-effort positions and beyond index 90, so
they may differ arbitrarily there; still the first run produces exactly
the explicit constant trace, and the two runs are identical.  (Command
outputs and retrieved file contents do not appear in the model at all,
mirroring the script, which never consumes them.) -/
theorem trace_constant_independent_of_env (env1 env2 : Nat → Bool)
    (h1 : ∀ j, j < configs.length → env1 (5 * j + 2) = true)
    (h1p : env1 90 = true)
    (h2 : ∀ j, j < configs.length → env2 (5 * j + 2) = true)
    (h2p : env2 90 = true) :
    runAll env1 = .ok ⟨(configs.map configTrace).flatten ++ [Event.cmd pullCmd], 91⟩ ∧
    runAll env1 = runAll env2 := by
  have a1 := runAll_ok env1 h1 h1p
  have a2 := runAll_ok env2 h2 h2p
  exact ⟨a1, a1.trans a2.symm⟩

theorem trace_constant_independent_of_env_witness :
    runAll (fun _ => true) =
      .ok ⟨(configs.map configTrace).flatten ++ [Event.cmd pullCmd], 91⟩ ∧
    runAll (fun _ => true) =
      runAll (fun k => decide (k % 5 = 2) || decide (90 ≤ k)) :=
  trace_constant_independent_of_env (fun _ => true)
    (fun k => decide (k % 5 = 2) || decide (90 ≤ k))
    (fun _ _ => rfl) rfl (by decide) (by decide)
